import Mathlib

set_option autoImplicit false

/-!
Shallow embedding of the op-compressor repository
(src/image_compressor.py and src/image_compressor_gui.py).

The external imaging library (PIL) is, per the specification, out of
scope: its operations are modelled as abstract total transforms on an
abstract image value, and the fallible I/O operations of the library
and the OS (file size query, decode, directory creation, encode/write)
are modelled through an environment record whose fields say, for each
call site, whether the call succeeds or raises and with what message.
Machine arithmetic: the Python expression int(width * pct / 100) is
truncation toward zero of a nonnegative quotient, i.e. Nat division
(float artifacts at astronomically large sizes are not modelled);
Python round is round-half-to-even, modelled exactly on rationals.
-/

/-- Pixel content of an image, tracked symbolically: each transform of
the imaging library tags the data it produces, so that two pipelines
writing different transform chains produce provably different content. -/
inductive Pix where
  | src : String → Pix
  | resized : Pix → Nat → Nat → Pix
  | thumbed : Pix → Nat → Pix
  | converted : Pix → String → Pix
  | quantized : Pix → Nat → Nat → Pix
deriving DecidableEq, Repr

/-- Abstract image value: mode string as PIL uses it, pixel dimensions,
whether the info dict holds a transparency key, whether side-channel
metadata is present, and the symbolic pixel content. -/
structure Img where
  mode : String
  width : Nat
  height : Nat
  transparencyKey : Bool
  meta : Bool
  data : Pix
deriving DecidableEq, Repr

/-- Record of one save call: path, the image handed to save, the format
argument (empty when the library infers it from the extension), and the
optional quality and method parameters. -/
structure WriteRec where
  path : String
  img : Img
  format : String
  quality : Option Nat
  method : Option Nat
deriving DecidableEq, Repr

/-- Task tuple of the CLI worker compress_image (image_compressor.py,
line 19): (input_path, output_path, quality, use_webp, webp_method,
resize_percentage, max_dimension, strip_exif, dither). -/
structure TaskT where
  input_path : String
  output_path : String
  quality : Nat
  use_webp : Bool
  webp_method : Nat
  resize_percentage : Option Nat
  max_dimension : Option Nat
  strip_exif : Bool
  dither : Nat
deriving DecidableEq, Repr

/-- Task tuple of the GUI worker compress_image_worker
(image_compressor_gui.py, line 21): (input_path, output_dir, quality,
use_webp, webp_method, resize_percentage, max_dimension, strip_exif). -/
structure GTask where
  input_path : String
  output_dir : String
  quality : Nat
  use_webp : Bool
  webp_method : Nat
  resize_percentage : Option Nat
  max_dimension : Option Nat
  strip_exif : Bool
deriving DecidableEq, Repr

/-- Environment: the filesystem and the fallible imaging/OS calls.
A field returning Except models a Python call that either returns or
raises (the raised exception rendered as its message string). -/
structure Env where
  pathExists : String → Bool
  isdir : String → Bool
  listdir : String → List String
  getsize : String → Except String Nat
  openImage : String → Except String Img
  makedirsExc : Option String
  saveExc : Option String

/-- Command-line argument bundle of main (image_compressor.py), after
argparse, with input and output paths already resolved. -/
structure Args where
  input : String
  output : String
  quality : Nat
  no_webp : Bool
  webp_method : Nat
  resize : Option Nat
  max_dim : Option Nat
  strip_exif : Bool
  no_parallel : Bool
deriving DecidableEq, Repr

/-- Split of a character list at a separator character (the semantics
of Python str.split with a one-character separator), written with
structural recursion so the kernel can evaluate it. -/
def splitCharsAux (sep : Char) : List Char → List Char → List String
  | [], acc => [String.mk acc.reverse]
  | c :: rest, acc =>
      if c = sep then String.mk acc.reverse :: splitCharsAux sep rest []
      else splitCharsAux sep rest (c :: acc)

/-- Split of a string at a separator character. -/
def splitChars (sep : Char) (s : String) : List String :=
  splitCharsAux sep s.toList []

/-- Join of a list of strings with a separator. -/
def joinSep (sep : String) : List String → String
  | [] => ""
  | [x] => x
  | x :: y :: rest => x ++ sep ++ joinSep sep (y :: rest)

/-- Model of os.path.basename for slash-separated paths. -/
def basename (p : String) : String :=
  (splitChars '/' p).getLastD ""

/-- Model of os.path.dirname for relative slash-separated paths
(the root-path edge case of absolute paths is not exercised here). -/
def dirname (p : String) : String :=
  let parts := splitChars '/' p
  if parts.length ≤ 1 then "" else joinSep "/" parts.dropLast

/-- Extension part of os.path.splitext (dotfile edge cases are not
exercised by any claim). -/
def extOf (p : String) : String :=
  let parts := splitChars '.' (basename p)
  if parts.length ≤ 1 then "" else "." ++ parts.getLastD ""

/-- Stem part of os.path.splitext: the path without its extension. -/
def stemOf (p : String) : String :=
  String.mk (p.toList.take (p.toList.length - (extOf p).length))

/-- Python round on the exact rational num / den: round half to even. -/
def pyRound (num den : Nat) : Nat :=
  let q := num / den
  let r := num % den
  if 2 * r < den then q
  else if den < 2 * r then q + 1
  else if q % 2 = 0 then q else q + 1

/-- Fixed-point rendering of num / den with two decimals, as Python
string formatting produces for these sizes (ties of the binary float
are approximated by round half up; no claim inspects the digits). -/
def fmtTwoDec (num den : Nat) : String :=
  let scaled := (num * 100 + den / 2) / den
  toString (scaled / 100) ++ "." ++
    (if scaled % 100 < 10 then "0" else "") ++ toString (scaled % 100)

/-- Human-readable size string of get_file_size (image_compressor.py,
lines 9-15): KB below 1024 KB, MB from there on. -/
def humanSize (size_bytes : Nat) : String :=
  if size_bytes < 1024 * 1024 then fmtTwoDec size_bytes 1024 ++ " KB"
  else fmtTwoDec size_bytes (1024 * 1024) ++ " MB"

/-- Model of get_file_size: queries the size (which may raise) and
renders it. -/
def get_file_size (env : Env) (p : String) : Except String String :=
  (env.getsize p).map humanSize

/-- Metadata strip stage (lines 30-34 of both workers): a fresh image
of the same mode and size receives the decoded pixel data; the info
dict of the fresh image is empty, so both the transparency key and any
metadata are gone while the pixels are preserved. -/
def stripMeta (img : Img) : Img :=
  { img with transparencyKey := false, meta := false }

/-- Imaging-library resize to the given exact dimensions. -/
def resizeImg (img : Img) (nw nh : Nat) : Img :=
  { img with width := nw, height := nh, data := Pix.resized img.data nw nh }

/-- Aspect-preserving shrink-to-fit dimensions of the thumbnail call:
never upscales; the library's exact rounding is abstracted (no claim
depends on the thumbnail dimensions, only on which branch ran). -/
def thumbFit (w h m : Nat) : Nat × Nat :=
  if w ≤ m ∧ h ≤ m then (w, h)
  else if h ≤ w then (m, max 1 (pyRound (h * m) w))
  else (max 1 (pyRound (w * m) h), m)

/-- Imaging-library thumbnail: downscale-only aspect fit. -/
def thumbnailImg (img : Img) (m : Nat) : Img :=
  { img with width := (thumbFit img.width img.height m).1,
             height := (thumbFit img.width img.height m).2,
             data := Pix.thumbed img.data m }

/-- Imaging-library convert: mode change; converting away from a
palette or alpha mode consumes the transparency key. -/
def convertImg (img : Img) (newMode : String) : Img :=
  { img with mode := newMode, transparencyKey := false,
             data := Pix.converted img.data newMode }

/-- Imaging-library quantize to a palette of the given size with the
given dither mode: the result is a palette-mode image. -/
def quantizeImg (img : Img) (colors dither : Nat) : Img :=
  { img with mode := "P", data := Pix.quantized img.data colors dither }

/-- Resize stage of the CLI worker (image_compressor.py, lines 37-43):
a truthy resize_percentage (set and nonzero) takes the percent branch
with int-truncated dimensions; otherwise a truthy max_dimension takes
the thumbnail branch. -/
def maxDimStage (maxd : Option Nat) (img : Img) : Img :=
  match maxd with
  | some m => if m = 0 then img else thumbnailImg img m
  | none => img

/-- CLI resize stage: if resize_percentage: resize; elif max_dimension:
thumbnail. -/
def resizeStageCLI (t : TaskT) (img : Img) : Img :=
  match t.resize_percentage with
  | some p =>
      if p = 0 then maxDimStage t.max_dimension img
      else resizeImg img (img.width * p / 100) (img.height * p / 100)
  | none => maxDimStage t.max_dimension img

/-- GUI resize stage (image_compressor_gui.py, lines 36-41): the
percent branch additionally requires resize_percentage < 100; a set
percentage of 100 or more falls through to the max_dimension branch. -/
def resizeStageGUI (g : GTask) (img : Img) : Img :=
  match g.resize_percentage with
  | some p =>
      if p = 0 ∨ 100 ≤ p then maxDimStage g.max_dimension img
      else resizeImg img (img.width * p / 100) (img.height * p / 100)
  | none => maxDimStage g.max_dimension img

/-- Model of one save call: either the write happens and is recorded,
or the library raises and nothing is recorded. -/
def saveCall (env : Env) (w : WriteRec) : List WriteRec × Except String Unit :=
  match env.saveExc with
  | some e => ([], Except.error e)
  | none => ([w], Except.ok ())

/-- Model of the os.makedirs call: succeeds or raises. -/
def makedirsCall (env : Env) : Except String Unit :=
  match env.makedirsExc with
  | some e => Except.error e
  | none => Except.ok ()

/-- Encode stage of the CLI worker (image_compressor.py, lines 50-61):
webp saves directly with quality and method; otherwise an image that is
RGBA or carries a transparency key is quantized as-is, any other image
is first flattened to RGB and then quantized, and the save format is
inferred from the output extension. -/
def encodeStageCLI (env : Env) (t : TaskT) (img2 : Img) :
    List WriteRec × Except String Unit :=
  if t.use_webp then
    saveCall env ⟨t.output_path, img2, "webp", some t.quality, some t.webp_method⟩
  else
    let img3 :=
      if img2.mode = "RGBA" || img2.transparencyKey then
        quantizeImg img2 256 t.dither
      else
        quantizeImg (convertImg img2 "RGB") 256 t.dither
    saveCall env ⟨t.output_path, img3, "", none, none⟩

/-- Output of the body of the CLI worker try block: directory-creation
attempts, recorded writes, and either the returned report line or the
raised exception. -/
structure BodyOut where
  mkdirs : List String
  writes : List WriteRec
  result : Except String String
deriving Repr

/-- Tail of the try block of compress_image after the resize stage
(image_compressor.py, lines 45-64): the ensure-output-directory call
(only when the directory is absent), the encode stage, the size query
of the output, and the success report line. Returns the recorded
writes together with the report line or the raised exception. -/
def afterDirCLI (env : Env) (t : TaskT) (original_size : String) (img2 : Img) :
    List WriteRec × Except String String :=
  match (if env.pathExists (dirname t.output_path) then Except.ok () else makedirsCall env) with
  | Except.error e => ([], Except.error e)
  | Except.ok _ =>
    match encodeStageCLI env t img2 with
    | (ws, Except.error e) => (ws, Except.error e)
    | (ws, Except.ok _) =>
      match get_file_size env t.output_path with
      | Except.error e => (ws, Except.error e)
      | Except.ok compressed_size =>
        (ws, Except.ok ("  - Input: " ++ basename t.input_path ++
          " (" ++ original_size ++ ") -> Output: " ++
          basename t.output_path ++ " (" ++ compressed_size ++ ")"))

/-- Body of the try block of compress_image (image_compressor.py,
lines 25-64): size query, decode, optional strip, resize stage, then
the directory/encode/report tail. Any raise short-circuits; the
directory-creation attempt is recorded whenever the output directory
does not exist at this point. -/
def bodyCLI (env : Env) (t : TaskT) : BodyOut :=
  match get_file_size env t.input_path with
  | Except.error e => ⟨[], [], Except.error e⟩
  | Except.ok original_size =>
    match env.openImage t.input_path with
    | Except.error e => ⟨[], [], Except.error e⟩
    | Except.ok img0 =>
      let img1 := if t.strip_exif then stripMeta img0 else img0
      let img2 := resizeStageCLI t img1
      let output_dir := dirname t.output_path
      let mk : List String := if env.pathExists output_dir then [] else [output_dir]
      let rest := afterDirCLI env t original_size img2
      ⟨mk, rest.1, rest.2⟩

/-- Observable outcome of one compress_image call: lines printed inside
the call, directory-creation attempts, recorded writes, and the return
value (none models the Python None returned for a skipped file). -/
structure JobOut where
  prints : List String
  mkdirs : List String
  writes : List WriteRec
  result : Option String
deriving DecidableEq, Repr

/-- CLI worker compress_image (image_compressor.py, lines 17-67): a
falsy or nonexistent input path prints a skip line and returns None
before the try block; otherwise the body runs and any exception it
raises is caught and rendered as an error report line. -/
def compress_image (env : Env) (t : TaskT) : JobOut :=
  if t.input_path = "" || !(env.pathExists t.input_path) then
    ⟨["Skipping missing file: " ++ t.input_path], [], [], none⟩
  else
    match bodyCLI env t with
    | ⟨mk, ws, Except.ok s⟩ => ⟨[], mk, ws, some s⟩
    | ⟨mk, ws, Except.error e⟩ =>
      ⟨[], mk, ws, some ("Error compressing " ++ basename t.input_path ++ ": " ++ e)⟩

/-- Output path the GUI worker derives for a task
(image_compressor_gui.py, lines 23-25). -/
def guiOutputPath (g : GTask) : String :=
  g.output_dir ++ "/" ++ stemOf (basename g.input_path) ++
    (if g.use_webp then ".webp" else ".png")

/-- Encode stage of the GUI worker (image_compressor_gui.py, lines
43-51): webp saves directly; otherwise any non-RGB image is first
converted to RGB (flattening alpha), then quantized with dither NONE,
and saved with the explicit png format. -/
def encodeStageGUI (env : Env) (g : GTask) (output_path : String) (img2 : Img) :
    List WriteRec × Except String Unit :=
  if g.use_webp then
    saveCall env ⟨output_path, img2, "webp", some g.quality, some g.webp_method⟩
  else
    let img3 := quantizeImg (if img2.mode ≠ "RGB" then convertImg img2 "RGB" else img2) 256 0
    saveCall env ⟨output_path, img3, "png", none, none⟩

/-- Observable outcome of one compress_image_worker call: recorded
writes and the returned report string (this worker always returns a
string and never prints or creates directories). -/
structure GOut where
  writes : List WriteRec
  result : String
deriving DecidableEq, Repr

/-- GUI worker compress_image_worker (image_compressor_gui.py, lines
20-55): no existence check; the try block opens, optionally strips,
resizes, encodes; any exception is caught and rendered as an ERROR
report line. -/
def compress_image_worker (env : Env) (g : GTask) : GOut :=
  match env.openImage g.input_path with
  | Except.error e => ⟨[], "ERROR: Compressing " ++ basename g.input_path ++ ": " ++ e⟩
  | Except.ok img0 =>
    match encodeStageGUI env g (guiOutputPath g)
        (resizeStageGUI g (if g.strip_exif then stripMeta img0 else img0)) with
    | (ws, Except.error e) => ⟨ws, "ERROR: Compressing " ++ basename g.input_path ++ ": " ++ e⟩
    | (ws, Except.ok _) =>
        ⟨ws, "SUCCESS: " ++ basename g.input_path ++ " -> " ++ basename (guiOutputPath g)⟩

/-- Extension allow-list filter of main (image_compressor.py, line
136): lowercased name ends with .png, .jpg, .jpeg or .ppm. -/
def extAllowed (filename : String) : Bool :=
  let f := filename.toLower
  f.endsWith ".png" || f.endsWith ".jpg" || f.endsWith ".jpeg" || f.endsWith ".ppm"

/-- Task built by main for an explicit single-file input
(image_compressor.py, line 141). -/
def taskOfSingle (a : Args) : TaskT :=
  ⟨a.input, a.output, a.quality, !a.no_webp, a.webp_method,
   a.resize, a.max_dim, a.strip_exif, 0⟩

/-- Task built by main for one directory entry (image_compressor.py,
lines 137-139). -/
def taskOfDirFile (a : Args) (filename : String) : TaskT :=
  ⟨a.input ++ "/" ++ filename,
   a.output ++ "/" ++ stemOf filename ++ (if !a.no_webp then ".webp" else ".png"),
   a.quality, !a.no_webp, a.webp_method, a.resize, a.max_dim, a.strip_exif, 0⟩

/-- Batch construction of main (image_compressor.py, lines 130-141):
for a directory input, create the output directory if absent and build
one task per allow-listed entry; for anything else, build exactly one
task. The first component records the orchestrator's own
directory-creation attempts; construction itself never fails. -/
def buildTasks (env : Env) (a : Args) : List String × List TaskT :=
  if env.isdir a.input then
    ((if env.pathExists a.output then [] else [a.output]),
     ((env.listdir a.input).filter extAllowed).map (taskOfDirFile a))
  else
    ([], [taskOfSingle a])

/-- Sequential execution loop of main (image_compressor.py, lines
153-158): run each job in order; its in-call prints appear, then its
non-None return value is printed. -/
def sequentialRun (env : Env) (tasks : List TaskT) : List String :=
  match tasks with
  | [] => []
  | t :: rest =>
      (compress_image env t).prints ++
        ((match (compress_image env t).result with | some s => [s] | none => []) ++
          sequentialRun env rest)

/-- Printed lines of a sequential batch run of main: the starting
banner, the per-job lines, and the final completion banner
(image_compressor.py, lines 143 and 153-160). -/
def runBatchPrints (env : Env) (tasks : List TaskT) : List String :=
  ("Starting compression for " ++ toString tasks.length ++ " image(s)...") ::
    (sequentialRun env tasks ++ ["\nCompression complete."])

/-- Return values the parallel branch of main receives: executor.map
yields one result per task, in submission order, whatever order the
worker processes complete in (image_compressor.py, lines 148-149). -/
def parallelResults (env : Env) (tasks : List TaskT) : List (Option String) :=
  tasks.map (fun t => (compress_image env t).result)

/-- Lines the parallel branch of main prints from the results: the
non-None results in the order executor.map yields them
(image_compressor.py, lines 150-152). -/
def parallelEmission (env : Env) (tasks : List TaskT) : List String :=
  (parallelResults env tasks).filterMap id

/-- Modelled from the spec: emission in the order results become
available from the pool, for a given completion order (a permutation of
the task indices). This is the behavior the specification describes
for CLI parallel mode; it is compared to the code's parallelEmission. -/
def availabilityOrderEmission (env : Env) (tasks : List TaskT)
    (order : List Nat) : List String :=
  order.filterMap (fun i =>
    match tasks.get? i with
    | some t => (compress_image env t).result
    | none => none)

/-- Emission of the sequential loop: the non-None return values in task
order (the skip prints excluded, matching the loop's result printing). -/
def sequentialEmission (env : Env) (tasks : List TaskT) : List String :=
  match tasks with
  | [] => []
  | t :: rest =>
      match (compress_image env t).result with
      | some s => s :: sequentialEmission env rest
      | none => sequentialEmission env rest

/-- Outcomes of the sequential loop, one per task in task order. -/
def sequentialOutcomes (env : Env) (tasks : List TaskT) : List (Option String) :=
  match tasks with
  | [] => []
  | t :: rest => (compress_image env t).result :: sequentialOutcomes env rest

/-- Single reported line a job contributes: its return value when there
is one, else the skip line emitted inside the worker. -/
def jobLine (env : Env) (t : TaskT) : String :=
  match (compress_image env t).result with
  | some s => s
  | none => "Skipping missing file: " ++ t.input_path

/-- CLI task corresponding to a GUI task: same fields, the output path
the GUI worker derives, and the dither value main always passes
(Image.Dither.NONE). -/
def toCLITask (g : GTask) : TaskT :=
  ⟨g.input_path, guiOutputPath g, g.quality, g.use_webp, g.webp_method,
   g.resize_percentage, g.max_dimension, g.strip_exif, 0⟩

/-! ## Concrete fixtures used by witnesses and counterexamples -/

/-- Opaque 3 by 3 RGB test image. -/
def imgRGB3 : Img := ⟨"RGB", 3, 3, false, false, Pix.src "a.png"⟩

/-- Opaque 8 by 8 RGB test image named a.png. -/
def imgA : Img := ⟨"RGB", 8, 8, false, false, Pix.src "a.png"⟩

/-- Opaque 8 by 8 RGB test image named b.png. -/
def imgB : Img := ⟨"RGB", 8, 8, false, false, Pix.src "b.png"⟩

/-- Transparent 4 by 4 RGBA test image. -/
def imgRGBA4 : Img := ⟨"RGBA", 4, 4, false, false, Pix.src "in.png"⟩

/-- Opaque 200 by 200 RGB test image. -/
def img200 : Img := ⟨"RGB", 200, 200, false, false, Pix.src "big.png"⟩

/-- Environment in which every path exists but the size query raises. -/
def envBoom : Env :=
  ⟨fun _ => true, fun _ => false, fun _ => [],
   fun _ => Except.error "boom", fun _ => Except.error "no decoder", none, none⟩

/-- Webp task for a single existing input file. -/
def taskBoom : TaskT := ⟨"in.png", "out/in.webp", 85, true, 4, none, none, false, 0⟩

/-- Webp task with a 50 percent resize. -/
def taskHalf : TaskT := ⟨"a.png", "out/a.webp", 85, true, 4, some 50, none, false, 0⟩

/-- GUI task with a 50 percent resize. -/
def gHalf : GTask := ⟨"a.png", "out", 85, true, 4, some 50, none, false⟩

/-! ## C1 -/

/-- C1: for every job whose input exists, any exception raised inside
the try block of compress_image (size query, decode, strip, resize,
directory creation, encode) is caught at the function boundary and
converted into an error report whose message is exactly the input
basename prefixed by the error banner and followed by the cause; the
function returns that report instead of raising. -/
theorem c1_pipeline_never_raises (env : Env) (t : TaskT) (e : String)
    (h1 : t.input_path ≠ "") (h2 : env.pathExists t.input_path = true)
    (h3 : (bodyCLI env t).result = Except.error e) :
    (compress_image env t).result =
      some ("Error compressing " ++ basename t.input_path ++ ": " ++ e) := by
  have hcond : (t.input_path = "" || !(env.pathExists t.input_path)) = false := by
    simp [h1, h2]
  unfold compress_image
  rw [hcond]
  simp only [Bool.false_eq_true, if_false]
  rcases hb : bodyCLI env t with ⟨mk, ws, r⟩
  rw [hb] at h3
  simp only at h3
  cases r with
  | ok s => exact absurd h3 (by simp)
  | error e2 => simp_all

/-- C1 witness: a concrete environment whose size query raises with
message boom makes compress_image return the converted error report. -/
theorem c1_pipeline_never_raises_witness :
    taskBoom.input_path ≠ "" ∧ envBoom.pathExists taskBoom.input_path = true ∧
    (bodyCLI envBoom taskBoom).result = Except.error "boom" ∧
    (compress_image envBoom taskBoom).result = some "Error compressing in.png: boom" :=
  ⟨by decide, rfl, rfl,
   (c1_pipeline_never_raises envBoom taskBoom "boom" (by decide) rfl rfl).trans (by decide)⟩

/-! ## C2 -/

/-- C2 counterexample: the claim says a set resize_percent p yields
dimensions round(dim * p / 100); on a 3 by 3 image at 50 percent the
code computes int(3 * 50 / 100) = 1 while round(150 / 100) = 2, so the
claim is false at this input. -/
theorem c2_resize_round_refuted :
    ¬ ((resizeStageCLI taskHalf imgRGB3).width = pyRound (3 * 50) 100 ∧
       (resizeStageCLI taskHalf imgRGB3).height = pyRound (3 * 50) 100) := by
  decide

/-- C2 amended: a set nonzero resize_percent p scales each dimension to
int(dim * p / 100), i.e. the truncated (floor) quotient, not the
rounded one; the GUI worker computes the same truncated dimensions
whenever its extra p < 100 guard admits the percent branch. -/
theorem c2_resize_truncates :
    (∀ (t : TaskT) (img : Img) (p : Nat), t.resize_percentage = some p → p ≠ 0 →
      (resizeStageCLI t img).width = img.width * p / 100 ∧
      (resizeStageCLI t img).height = img.height * p / 100) ∧
    (∀ (g : GTask) (img : Img) (p : Nat), g.resize_percentage = some p → p ≠ 0 → p < 100 →
      resizeStageGUI g img = resizeImg img (img.width * p / 100) (img.height * p / 100)) := by
  constructor
  · intro t img p hp hp0
    unfold resizeStageCLI
    rw [hp]
    simp [hp0, resizeImg]
  · intro g img p hp hp0 hlt
    unfold resizeStageGUI
    rw [hp]
    simp [hp0, Nat.not_le.mpr hlt]

/-- C2 amended witness: at 50 percent a 3 by 3 image becomes 1 by 1 in
both workers. -/
theorem c2_resize_truncates_witness :
    ((resizeStageCLI taskHalf imgRGB3).width = 1 ∧
     (resizeStageCLI taskHalf imgRGB3).height = 1) ∧
    resizeStageGUI gHalf imgRGB3 = resizeImg imgRGB3 1 1 :=
  ⟨c2_resize_truncates.1 taskHalf imgRGB3 50 rfl (by decide),
   c2_resize_truncates.2 gHalf imgRGB3 50 rfl (by decide) (by decide)⟩

/-! ## C3 -/

/-- Environment in which a.png and b.png both exist, decode, and save
successfully. -/
def envTwo : Env :=
  ⟨fun _ => true, fun _ => false, fun _ => [],
   fun _ => Except.ok 1024,
   fun p => if p = "a.png" then Except.ok imgA else Except.ok imgB,
   none, none⟩

/-- Webp task for a.png. -/
def taskA : TaskT := ⟨"a.png", "out/a.webp", 85, true, 4, none, none, false, 0⟩

/-- Webp task for b.png. -/
def taskB : TaskT := ⟨"b.png", "out/b.webp", 85, true, 4, none, none, false, 0⟩

/-- C3 counterexample: the claim says CLI parallel mode emits results
in the order they become available from the pool; with two jobs whose
completion order is the reversal of submission order (a legitimate pool
schedule), availability-order emission differs from what the code's
executor.map loop prints, so the claim is false at this input. -/
theorem c3_availability_order_refuted :
    availabilityOrderEmission envTwo [taskA, taskB] [1, 0] ≠
      parallelEmission envTwo [taskA, taskB] := by
  decide

/-- C3 amended: the parallel branch of main iterates executor.map,
which yields one result per task in submission order, so the reporting
sink receives exactly the lines the sequential loop would emit, in the
same (submission) order, whatever order the workers complete in. -/
theorem c3_parallel_emits_in_submission_order (env : Env) (tasks : List TaskT) :
    parallelEmission env tasks = sequentialEmission env tasks := by
  induction tasks with
  | nil => rfl
  | cons t rest ih =>
      cases h : (compress_image env t).result with
      | none =>
          have l1 : parallelEmission env (t :: rest) = parallelEmission env rest := by
            unfold parallelEmission parallelResults
            simp only [List.map_cons]
            rw [h, List.filterMap_cons]
            rfl
          have l2 : sequentialEmission env (t :: rest) = sequentialEmission env rest := by
            show (match (compress_image env t).result with
                  | some x => x :: sequentialEmission env rest
                  | none => sequentialEmission env rest) = sequentialEmission env rest
            rw [h]
          rw [l1, l2, ih]
      | some s =>
          have l1 : parallelEmission env (t :: rest) = s :: parallelEmission env rest := by
            unfold parallelEmission parallelResults
            simp only [List.map_cons]
            rw [h, List.filterMap_cons]
            rfl
          have l2 : sequentialEmission env (t :: rest) = s :: sequentialEmission env rest := by
            show (match (compress_image env t).result with
                  | some x => x :: sequentialEmission env rest
                  | none => sequentialEmission env rest) = s :: sequentialEmission env rest
            rw [h]
          rw [l1, l2, ih]

/-! ## C8 -/

/-- C8: running a batch through the parallel branch and through the
sequential branch produces the same multiset of per-job outcomes (in
fact the same list, since executor.map preserves submission order). -/
theorem c8_parallel_sequential_same_outcomes (env : Env) (tasks : List TaskT) :
    (parallelResults env tasks : Multiset (Option String)) =
      (sequentialOutcomes env tasks : Multiset (Option String)) := by
  have h : sequentialOutcomes env tasks = parallelResults env tasks := by
    induction tasks with
    | nil => rfl
    | cons t rest ih =>
        show (compress_image env t).result :: sequentialOutcomes env rest = _
        rw [ih]
        rfl
  rw [h]

/-! ## C7 -/

/-- Helper: one compress_image call contributes exactly one reported
line, namely its jobLine: the skip print for a missing file (whose
return value is None), or the returned success/error report. -/
theorem job_print_lines (env : Env) (t : TaskT) :
    (compress_image env t).prints ++
      (match (compress_image env t).result with | some s => [s] | none => []) =
      [jobLine env t] := by
  unfold jobLine compress_image
  by_cases h : (t.input_path = "" || !(env.pathExists t.input_path)) = true
  · simp [h]
  · simp only [Bool.not_eq_true] at h
    rw [h]
    simp only [Bool.false_eq_true, if_false]
    rcases hb : bodyCLI env t with ⟨mk, ws, r⟩
    cases r <;> simp

/-- C7: a sequential batch run prints the starting banner, then exactly
one line per job, in order, whether that job succeeded, failed, or was
skipped, then the final completion banner, regardless of how many jobs
failed. -/
theorem c7_one_line_per_job_and_summary (env : Env) (tasks : List TaskT) :
    runBatchPrints env tasks =
      ("Starting compression for " ++ toString tasks.length ++ " image(s)...") ::
        (tasks.map (jobLine env) ++ ["\nCompression complete."]) := by
  unfold runBatchPrints
  have h : sequentialRun env tasks = tasks.map (jobLine env) := by
    induction tasks with
    | nil => rfl
    | cons t rest ih =>
        unfold sequentialRun
        rw [List.map_cons, ← List.append_assoc, job_print_lines, ih]
        rfl
  rw [h]

/-! ## C4 -/

/-- Environment for a single-file run: only in.png exists, the output
directory out does not, and decode/save succeed. -/
def envSingle : Env :=
  ⟨fun p => p == "in.png", fun _ => false, fun _ => [],
   fun _ => Except.ok 1024, fun _ => Except.ok imgRGBA4, none, none⟩

/-- Arguments of a single-file webp run writing into the absent
directory out. -/
def argsSingle : Args := ⟨"in.png", "out/res.webp", 85, false, 4, none, none, false, false⟩

/-- C4 counterexample: in a single-file run the orchestrator performs
no directory creation at all, and the worker executing the pipeline
itself creates the missing output directory, so the claim that the
directory is created exactly once by the orchestrator and never by a
worker is false at this input. -/
theorem c4_worker_creates_directory :
    (buildTasks envSingle argsSingle).1 = [] ∧
    (compress_image envSingle (taskOfSingle argsSingle)).mkdirs ≠ [] ∧
    (compress_image envSingle (taskOfSingle argsSingle)).mkdirs = ["out"] := by
  decide

/-- C4 amended: directory creation has two sites: the orchestrator
creates a missing output directory before submission only when the
input is a directory, and every worker whose job reaches the
ensure-output-directory step (input exists, size query and decode
succeed) additionally creates the parent directory of its output path
whenever that directory does not exist at job time. -/
theorem c4_directory_creation_sites :
    (∀ (env : Env) (a : Args), env.isdir a.input = true →
      env.pathExists a.output = false → (buildTasks env a).1 = [a.output]) ∧
    (∀ (env : Env) (t : TaskT) (n : Nat) (img : Img),
      t.input_path ≠ "" → env.pathExists t.input_path = true →
      env.getsize t.input_path = Except.ok n →
      env.openImage t.input_path = Except.ok img →
      (compress_image env t).mkdirs =
        (if env.pathExists (dirname t.output_path) then [] else [dirname t.output_path])) := by
  constructor
  · intro env a hdir hout
    unfold buildTasks
    rw [hdir, hout]
    simp
  · intro env t n img h1 h2 hsize hopen
    have hcond : (t.input_path = "" || !(env.pathExists t.input_path)) = false := by
      simp [h1, h2]
    unfold compress_image
    rw [hcond]
    simp only [Bool.false_eq_true, if_false]
    have hbody : bodyCLI env t =
        ⟨(if env.pathExists (dirname t.output_path) then [] else [dirname t.output_path]),
         (afterDirCLI env t (humanSize n)
           (resizeStageCLI t (if t.strip_exif then stripMeta img else img))).1,
         (afterDirCLI env t (humanSize n)
           (resizeStageCLI t (if t.strip_exif then stripMeta img else img))).2⟩ := by
      unfold bodyCLI get_file_size
      rw [hsize, hopen]
      rfl
    rw [hbody]
    rcases hr : (afterDirCLI env t (humanSize n)
        (resizeStageCLI t (if t.strip_exif then stripMeta img else img))).2 with e | s <;>
      simp [hr]

/-- Environment for a directory-mode run: the directory photos exists
and holds a.png, the output directory outdir does not exist. -/
def envDirMode : Env :=
  ⟨fun p => p == "photos", fun p => p == "photos", fun _ => ["a.png"],
   fun _ => Except.ok 1024, fun _ => Except.ok imgA, none, none⟩

/-- Arguments of a directory-mode webp run into the absent outdir. -/
def argsDirMode : Args := ⟨"photos", "outdir", 85, false, 4, none, none, false, false⟩

/-- C4 amended witness: a directory-mode run records the orchestrator
creation of the missing output directory, and the single-file worker
records its own creation of the missing parent directory. -/
theorem c4_directory_creation_sites_witness :
    (buildTasks envDirMode argsDirMode).1 = ["outdir"] ∧
    (compress_image envSingle (taskOfSingle argsSingle)).mkdirs =
      (if envSingle.pathExists (dirname "out/res.webp") then [] else [dirname "out/res.webp"]) :=
  ⟨c4_directory_creation_sites.1 envDirMode argsDirMode rfl rfl,
   c4_directory_creation_sites.2 envSingle (taskOfSingle argsSingle) 1024 imgRGBA4
     (by decide) rfl rfl rfl⟩

/-! ## C5 -/

/-- Environment in which no path exists at all. -/
def envGhost : Env :=
  ⟨fun _ => false, fun _ => false, fun _ => [],
   fun _ => Except.error "stat: no such file",
   fun _ => Except.error "open: no such file", none, none⟩

/-- Arguments naming a nonexistent input file. -/
def argsGhost : Args := ⟨"ghost.png", "out.webp", 85, false, 4, none, none, false, false⟩

/-- C5 counterexample: the claim says batch construction fails with an
InvalidInput error before any job runs when the input path does not
exist; in the code construction cannot fail: it builds a one-job batch
for the nonexistent path and the run executes that job, which reports
a skip line, so the claim is false at this input. -/
theorem c5_missing_input_not_rejected :
    (buildTasks envGhost argsGhost).2 ≠ [] ∧
    runBatchPrints envGhost (buildTasks envGhost argsGhost).2 =
      ["Starting compression for 1 image(s)...",
       "Skipping missing file: ghost.png",
       "\nCompression complete."] := by
  decide

/-- C5 amended: batch construction never fails: an input path that is
not a directory (in particular one that does not exist) always yields a
single-job batch with no validation, and that job is skipped at run
time by the worker's own existence check, producing only the skip
line. -/
theorem c5_missing_input_single_skipped_job (env : Env) (a : Args)
    (hdir : env.isdir a.input = false) (hex : env.pathExists a.input = false) :
    buildTasks env a = ([], [taskOfSingle a]) ∧
    compress_image env (taskOfSingle a) =
      ⟨["Skipping missing file: " ++ a.input], [], [], none⟩ := by
  constructor
  · unfold buildTasks
    rw [hdir]
    simp
  · unfold compress_image
    have hcond : ((taskOfSingle a).input_path = "" ||
        !(env.pathExists (taskOfSingle a).input_path)) = true := by
      show (a.input = "" || !(env.pathExists a.input)) = true
      rw [hex]
      simp
    rw [hcond]
    rfl

/-- C5 amended witness: the concrete nonexistent input ghost.png yields
the one-job batch and the skip outcome. -/
theorem c5_missing_input_single_skipped_job_witness :
    buildTasks envGhost argsGhost = ([], [taskOfSingle argsGhost]) ∧
    compress_image envGhost (taskOfSingle argsGhost) =
      ⟨["Skipping missing file: ghost.png"], [], [], none⟩ :=
  c5_missing_input_single_skipped_job envGhost argsGhost rfl rfl

/-! ## C6 -/

/-- GUI task for the nonexistent input in.png. -/
def gGhost : GTask := ⟨"in.png", "out", 85, true, 4, none, none, false⟩

/-- Environment in which nothing exists and opening any path raises
FileNotFoundError. -/
def envMiss : Env :=
  ⟨fun _ => false, fun _ => false, fun _ => [],
   fun _ => Except.error "No such file or directory",
   fun _ => Except.error "No such file or directory", none, none⟩

/-- C6 counterexample: on a missing input file the GUI worker does not
return a Skipped result: it has no existence check, runs the decode
stage, and converts the decode failure into an ERROR report, unlike the
CLI worker which skips (returns None) at the same input. So the claim,
which covers both cited pipeline implementations, is false at this
input. -/
theorem c6_gui_worker_no_existence_check :
    (compress_image_worker envMiss gGhost).result =
      "ERROR: Compressing in.png: No such file or directory" ∧
    (compress_image_worker envMiss gGhost).result ≠ "Skipping missing file: in.png" ∧
    (compress_image envMiss (toCLITask gGhost)).result = none := by
  decide

/-- C6 amended: only the CLI worker skips: for a falsy or nonexistent
input path it returns None immediately after printing the skip line,
with no directory creation and no write (no further stage runs); the
GUI worker performs no existence check, and when the decode stage
raises (as it does for a missing file) it returns an ERROR report built
from the basename and the cause, with no write recorded. -/
theorem c6_skip_only_in_cli_worker :
    (∀ (env : Env) (t : TaskT),
      (t.input_path = "" ∨ env.pathExists t.input_path = false) →
      compress_image env t =
        ⟨["Skipping missing file: " ++ t.input_path], [], [], none⟩) ∧
    (∀ (env : Env) (g : GTask) (e : String),
      env.openImage g.input_path = Except.error e →
      (compress_image_worker env g).writes = [] ∧
      (compress_image_worker env g).result =
        "ERROR: Compressing " ++ basename g.input_path ++ ": " ++ e) := by
  constructor
  · intro env t h
    have hcond : (t.input_path = "" || !(env.pathExists t.input_path)) = true := by
      rcases h with h | h <;> simp [h]
    unfold compress_image
    rw [hcond]
    rfl
  · intro env g e hopen
    unfold compress_image_worker
    rw [hopen]
    exact ⟨rfl, rfl⟩

/-- C6 amended witness: the CLI worker skips the missing in.png while
the GUI worker reports the decode failure. -/
theorem c6_skip_only_in_cli_worker_witness :
    compress_image envMiss (toCLITask gGhost) =
      ⟨["Skipping missing file: in.png"], [], [], none⟩ ∧
    (compress_image_worker envMiss gGhost).writes = [] ∧
    (compress_image_worker envMiss gGhost).result =
      "ERROR: Compressing in.png: No such file or directory" :=
  ⟨(c6_skip_only_in_cli_worker.1 envMiss (toCLITask gGhost) (Or.inr rfl)).trans (by decide),
   (c6_skip_only_in_cli_worker.2 envMiss gGhost "No such file or directory" rfl).1,
   ((c6_skip_only_in_cli_worker.2 envMiss gGhost "No such file or directory" rfl).2).trans
     (by decide)⟩

/-! ## C9 -/

/-- GUI task with both resize_percent = 100 and max_dimension = 50 set. -/
def g100 : GTask := ⟨"big.png", "out", 85, true, 4, some 100, some 50, false⟩

/-- C9 counterexample: the claim says that with both knobs set the
pipeline applies the percentage resize and ignores max_dimension; in
the GUI worker a set resize_percent of 100 fails the p < 100 guard and
the stage falls through to the max_dimension thumbnail, so the claim is
false at this input. -/
theorem c9_gui_percent_100_falls_to_max_dim :
    resizeStageGUI g100 img200 = thumbnailImg img200 50 ∧
    resizeStageGUI g100 img200 ≠
      resizeImg img200 (200 * 100 / 100) (200 * 100 / 100) := by
  decide

/-- C9 amended: with both knobs set, the CLI worker always gives a
truthy (nonzero) resize_percent precedence over max_dimension; the GUI
worker gives it precedence only when it is additionally below 100, and
a set percent of 100 or more is ignored there in favour of the
max_dimension thumbnail. -/
theorem c9_percent_precedence :
    (∀ (t : TaskT) (img : Img) (p m : Nat),
      t.resize_percentage = some p → p ≠ 0 → t.max_dimension = some m →
      resizeStageCLI t img =
        resizeImg img (img.width * p / 100) (img.height * p / 100)) ∧
    (∀ (g : GTask) (img : Img) (p m : Nat),
      g.resize_percentage = some p → p ≠ 0 → p < 100 → g.max_dimension = some m →
      resizeStageGUI g img =
        resizeImg img (img.width * p / 100) (img.height * p / 100)) ∧
    (∀ (g : GTask) (img : Img) (p m : Nat),
      g.resize_percentage = some p → 100 ≤ p → g.max_dimension = some m → m ≠ 0 →
      resizeStageGUI g img = thumbnailImg img m) := by
  refine ⟨?_, ?_, ?_⟩
  · intro t img p m hp hp0 hm
    unfold resizeStageCLI
    rw [hp]
    simp [hp0]
  · intro g img p m hp hp0 hlt hm
    unfold resizeStageGUI
    rw [hp]
    simp [hp0, Nat.not_le.mpr hlt]
  · intro g img p m hp hge hm hm0
    unfold resizeStageGUI
    rw [hp, hm]
    simp [Or.inr hge, maxDimStage, hm0]

/-- CLI task with both resize_percent = 50 and max_dimension = 50 set. -/
def taskBoth : TaskT := ⟨"a.png", "out/a.webp", 85, true, 4, some 50, some 50, false, 0⟩

/-- GUI task with both resize_percent = 50 and max_dimension = 50 set. -/
def gBoth : GTask := ⟨"a.png", "out", 85, true, 4, some 50, some 50, false⟩

/-- C9 amended witness: at 50 percent with max_dimension 50 both
workers resize the 200 by 200 image to 100 by 100, while at 100 percent
the GUI worker thumbnails to the max dimension instead. -/
theorem c9_percent_precedence_witness :
    resizeStageCLI taskBoth img200 = resizeImg img200 100 100 ∧
    resizeStageGUI gBoth img200 = resizeImg img200 100 100 ∧
    resizeStageGUI g100 img200 = thumbnailImg img200 50 :=
  ⟨(c9_percent_precedence.1 taskBoth img200 50 50 rfl (by decide) rfl).trans (by decide),
   (c9_percent_precedence.2.1 gBoth img200 50 50 rfl (by decide) (by decide) rfl).trans
     (by decide),
   c9_percent_precedence.2.2 g100 img200 100 50 rfl (by decide) rfl (by decide)⟩

/-! ## C10 -/

/-- GUI non-lossy task for the RGBA image in.png. -/
def gAlpha : GTask := ⟨"in.png", "out", 85, false, 4, none, none, false⟩

/-- Environment in which every path exists, in.png decodes to the RGBA
test image, and all writes succeed. -/
def envAlpha : Env :=
  ⟨fun _ => true, fun _ => false, fun _ => [],
   fun _ => Except.ok 1024, fun _ => Except.ok imgRGBA4, none, none⟩

/-- C10 counterexample: on an RGBA input in the non-lossy branch the
CLI worker quantizes the image directly (preserving alpha) while the
GUI worker first flattens it to RGB and then quantizes, so the two
workers write different image content for the same job and are not
equivalent. -/
theorem c10_workers_not_equivalent :
    (compress_image envAlpha (toCLITask gAlpha)).writes.map WriteRec.img ≠
      (compress_image_worker envAlpha gAlpha).writes.map WriteRec.img := by
  decide

/-- Helper: when the existence check passes, the writes of the CLI
worker are the writes of its try body. -/
theorem compress_image_writes (env : Env) (t : TaskT)
    (h1 : t.input_path ≠ "") (h2 : env.pathExists t.input_path = true) :
    (compress_image env t).writes = (bodyCLI env t).writes := by
  have hcond : (t.input_path = "" || !(env.pathExists t.input_path)) = false := by
    simp [h1, h2]
  unfold compress_image
  rw [hcond]
  simp only [Bool.false_eq_true, if_false]
  rcases hb : bodyCLI env t with ⟨mk, ws, r⟩
  cases r <;> rfl

/-- Helper: the try body of the CLI worker, after a successful size
query and decode, is the directory/encode/report tail applied to the
stripped and resized image. -/
theorem bodyCLI_eq (env : Env) (t : TaskT) (n : Nat) (img : Img)
    (hsize : env.getsize t.input_path = Except.ok n)
    (hopen : env.openImage t.input_path = Except.ok img) :
    bodyCLI env t =
      ⟨(if env.pathExists (dirname t.output_path) then [] else [dirname t.output_path]),
       (afterDirCLI env t (humanSize n)
         (resizeStageCLI t (if t.strip_exif then stripMeta img else img))).1,
       (afterDirCLI env t (humanSize n)
         (resizeStageCLI t (if t.strip_exif then stripMeta img else img))).2⟩ := by
  unfold bodyCLI get_file_size
  rw [hsize, hopen]
  rfl

/-- Helper: a failed decode leaves the CLI try body with no writes. -/
theorem bodyCLI_writes_open_error (env : Env) (t : TaskT) (n : Nat) (e : String)
    (hsize : env.getsize t.input_path = Except.ok n)
    (hopen : env.openImage t.input_path = Except.error e) :
    (bodyCLI env t).writes = [] := by
  unfold bodyCLI get_file_size
  rw [hsize, hopen]
  rfl

/-- Helper: when makedirs succeeds, the directory step changes nothing
about the recorded writes of the tail: they are the encode stage's. -/
theorem afterDirCLI_writes (env : Env) (t : TaskT) (os : String) (img2 : Img)
    (h4 : env.makedirsExc = none) :
    (afterDirCLI env t os img2).1 = (encodeStageCLI env t img2).1 := by
  have hdir : (if env.pathExists (dirname t.output_path) then Except.ok ()
      else makedirsCall env) = Except.ok () := by
    unfold makedirsCall
    rw [h4]
    split <;> rfl
  unfold afterDirCLI
  rcases he : encodeStageCLI env t img2 with ⟨ws, r⟩
  rw [hdir]
  cases r with
  | error e => rfl
  | ok u =>
      cases hg : get_file_size env t.output_path with
      | error e2 => rfl
      | ok cs => rfl

/-- Helper: a failed decode leaves the GUI worker with no writes. -/
theorem gui_writes_open_error (env : Env) (g : GTask) (e : String)
    (hopen : env.openImage g.input_path = Except.error e) :
    (compress_image_worker env g).writes = [] := by
  unfold compress_image_worker
  rw [hopen]

/-- Helper: after a successful decode, the writes of the GUI worker are
the writes of its encode stage on the stripped and resized image. -/
theorem gui_writes_eq (env : Env) (g : GTask) (img0 : Img)
    (hopen : env.openImage g.input_path = Except.ok img0) :
    (compress_image_worker env g).writes =
      (encodeStageGUI env g (guiOutputPath g)
        (resizeStageGUI g (if g.strip_exif then stripMeta img0 else img0))).1 := by
  unfold compress_image_worker
  rw [hopen]
  dsimp only
  rcases he : encodeStageGUI env g (guiOutputPath g)
      (resizeStageGUI g (if g.strip_exif then stripMeta img0 else img0)) with ⟨ws, r⟩
  cases r <;> rfl

/-- Helper: the resize stages of the two workers agree on every task
whose resize_percent is unset or set below 100. -/
theorem resize_stages_agree (g : GTask) (img : Img)
    (h6 : g.resize_percentage = none ∨
      ∃ p, g.resize_percentage = some p ∧ p < 100) :
    resizeStageCLI (toCLITask g) img = resizeStageGUI g img := by
  have e1 : (toCLITask g).resize_percentage = g.resize_percentage := rfl
  have e2 : (toCLITask g).max_dimension = g.max_dimension := rfl
  unfold resizeStageCLI resizeStageGUI
  rw [e1, e2]
  rcases h6 with h | ⟨p, hp, hlt⟩
  · rw [h]
  · rw [hp]
    by_cases hp0 : p = 0
    · simp [hp0]
    · simp [hp0, Nat.not_le.mpr hlt]

/-- Helper: in the lossy (webp) branch the encode stages of the two
workers record identical writes for the same image. -/
theorem encode_writes_agree (env : Env) (g : GTask) (img2 : Img)
    (h5 : g.use_webp = true) :
    (encodeStageCLI env (toCLITask g) img2).1 =
      (encodeStageGUI env g (guiOutputPath g) img2).1 := by
  have e1 : (toCLITask g).use_webp = g.use_webp := rfl
  unfold encodeStageCLI encodeStageGUI
  rw [e1, h5]
  rfl

/-- C10 amended: the two workers are equivalent only on the common
core: for a job with an existing, decodable input, a successful size
query, no makedirs failure, the lossy (webp) codec, and a resize
percent that is unset or below 100, the CLI worker on the corresponding
task records exactly the writes of the GUI worker (same path, image
content, format, quality and method). Outside that core they diverge
(existence handling, percent of 100 or more, alpha handling in the
non-lossy branch). -/
theorem c10_webp_equivalence (env : Env) (g : GTask) (n : Nat)
    (h1 : g.input_path ≠ "") (h2 : env.pathExists g.input_path = true)
    (h3 : env.getsize g.input_path = Except.ok n)
    (h4 : env.makedirsExc = none) (h5 : g.use_webp = true)
    (h6 : g.resize_percentage = none ∨
      ∃ p, g.resize_percentage = some p ∧ p < 100) :
    (compress_image env (toCLITask g)).writes =
      (compress_image_worker env g).writes := by
  have hw : (compress_image env (toCLITask g)).writes =
      (bodyCLI env (toCLITask g)).writes :=
    compress_image_writes env (toCLITask g) h1 h2
  cases hopen : env.openImage g.input_path with
  | error e =>
      rw [hw, bodyCLI_writes_open_error env (toCLITask g) n e h3 hopen,
          gui_writes_open_error env g e hopen]
  | ok img0 =>
      rw [hw, bodyCLI_eq env (toCLITask g) n img0 h3 hopen]
      have hstrip : (if (toCLITask g).strip_exif then stripMeta img0 else img0) =
          (if g.strip_exif then stripMeta img0 else img0) := rfl
      show (afterDirCLI env (toCLITask g) (humanSize n)
        (resizeStageCLI (toCLITask g)
          (if (toCLITask g).strip_exif then stripMeta img0 else img0))).1 = _
      rw [hstrip, afterDirCLI_writes env (toCLITask g) (humanSize n) _ h4,
          resize_stages_agree g _ h6, gui_writes_eq env g img0 hopen]
      exact encode_writes_agree env g _ h5

/-- GUI webp task with a 50 percent resize and metadata stripping. -/
def gWebp : GTask := ⟨"a.png", "out", 85, true, 4, some 50, none, true⟩

/-- Environment in which every path exists, a.png decodes, and all
writes succeed. -/
def envW10 : Env :=
  ⟨fun _ => true, fun _ => false, fun _ => [],
   fun _ => Except.ok 2048, fun _ => Except.ok imgA, none, none⟩

/-- C10 amended witness: a webp job at 50 percent gives identical
writes in the two workers. -/
theorem c10_webp_equivalence_witness :
    (compress_image envW10 (toCLITask gWebp)).writes =
      (compress_image_worker envW10 gWebp).writes :=
  c10_webp_equivalence envW10 gWebp 2048 (by decide) rfl rfl rfl rfl
    (Or.inr ⟨50, rfl, by decide⟩)
